import Mathlib

/-!
Verification of the Luxury Real Estate & Construction backend
(`main.py`, `schemas.py`) against its specification.

The embedding models MongoDB documents as association lists of
string keys to a BSON-like value type.  Every sub-document this program
stores (the embedded SEO block) is flat, so values are stratified into
flat primitives (`Prim`) and top-level values (`Val` = primitive or flat
sub-document); this keeps equality decidable while covering every
document the program builds.  Pure request-handler logic (filter
construction, lead scoring, serialization) is translated directly from
`main.py`.  The document store itself (`database.py`, pymongo, bson) is
not part of the provided source; where its behaviour decides a claim it
is modelled from the specification, and each such definition says so in
its doc comment.
-/

set_option maxHeartbeats 1000000

namespace RealEstate

/-- Flat BSON-like primitive values.  `pOid` is a 12-byte object
identifier carried as its canonical (lowercase) 24-hex-char string form;
`pTime` is a UTC timestamp carried as a number. -/
inductive Prim where
  | pNull
  | pStr (s : String)
  | pInt (n : Int)
  | pRat (q : Rat)
  | pBool (b : Bool)
  | pOid (hex : String)
  | pTime (t : Nat)
  | pStrList (xs : List String)
deriving DecidableEq, Repr

/-- A flat sub-document (the shape of the embedded SEO block). -/
abbrev SubDoc := List (String × Prim)

/-- A stored value: a primitive or a flat sub-document. -/
inductive Val where
  | prim (p : Prim)
  | vDoc (fields : SubDoc)
deriving DecidableEq, Repr

/-- Shorthand constructors for readable documents. -/
def vNull : Val := Val.prim Prim.pNull

def vStr (s : String) : Val := Val.prim (Prim.pStr s)

def vInt (n : Int) : Val := Val.prim (Prim.pInt n)

def vRat (q : Rat) : Val := Val.prim (Prim.pRat q)

def vBool (b : Bool) : Val := Val.prim (Prim.pBool b)

def vOid (hex : String) : Val := Val.prim (Prim.pOid hex)

def vTime (t : Nat) : Val := Val.prim (Prim.pTime t)

def vStrList (xs : List String) : Val := Val.prim (Prim.pStrList xs)

/-- A document: an association list of field names to values (a Python
dict with string keys; keys are unique in every document this program
builds). -/
abbrev Doc := List (String × Val)

/-- Field lookup: `doc.get(k)` / `doc[k]` on a Python dict rendered as an
association list. -/
def getField (d : Doc) (k : String) : Option Val :=
  (d.find? (fun kv => kv.1 == k)).map (fun kv => kv.2)

/-- Python `str(v)` for the values this program passes to `str`.  The
code only ever applies it to the `_id` object identifier (whose string
form is its hex representation); the remaining cases are given for
totality. -/
def pyStr : Val → String
  | Val.prim Prim.pNull => "None"
  | Val.prim (Prim.pStr s) => s
  | Val.prim (Prim.pInt n) => toString n
  | Val.prim (Prim.pRat q) => toString q
  | Val.prim (Prim.pBool b) => if b then "True" else "False"
  | Val.prim (Prim.pOid hex) => hex
  | Val.prim (Prim.pTime t) => toString t
  | Val.prim (Prim.pStrList _) => ""
  | Val.vDoc _ => ""

/-- One entry of `serialize_doc`: the `_id` value is replaced by its
string form, every other entry is kept as is (`main.py` lines 26-32). -/
def serializeEntry (kv : String × Val) : String × Val :=
  if kv.1 == "_id" then (kv.1, vStr (pyStr kv.2)) else kv

/-- `serialize_doc` from `main.py` lines 26-32: falsy (empty) documents
pass through unchanged; otherwise the document is copied and, when an
`_id` field is present, its value is rendered as a string under the same
key. -/
def serialize_doc (doc : Doc) : Doc :=
  if doc.isEmpty then doc
  else doc.map serializeEntry

/-! ## Property search: the filter builder (`list_properties`, lines 63-103) -/

/-- The optional query parameters of `GET /api/properties`.  A `none`
string is an absent parameter; `some ""` is the empty string a client
sends with `location=` (FastAPI hands both to the handler). -/
structure SearchParams where
  location : Option String := none
  type : Option String := none
  status : Option String := none
  min_price : Option Rat := none
  max_price : Option Rat := none
  bedrooms : Option Int := none
  bathrooms : Option Rat := none
  featured : Option Bool := none
deriving DecidableEq, Repr

/-- A constraint stored under one key of the query dict built by
`list_properties`: an exact equality, a `{"$gte": v}` minimum threshold,
a `{"$gte": lo, "$lte": hi}` price range (an absent bound is simply not
a key of that sub-dict), or the `$or` list of `{field: {"$regex": pat,
"$options": "i"}}` clauses built for `location`. -/
inductive QCond where
  | eq (v : Val)
  | gte (v : Val)
  | range (lo hi : Option Rat)
  | orRegexI (alts : List (String × String))
deriving DecidableEq, Repr

/-- A query predicate: the dict `f` of `list_properties`, key by key. -/
abbrev Filter := List (String × QCond)

/-- Python string truthiness (`if location:`): present and non-empty. -/
def strTruthy : Option String → Bool
  | some s => s ≠ ""
  | none => false

/-- The `if location:` block (`main.py` lines 78-83): a truthy location
contributes the one `$or` group of the three case-insensitive regex
clauses. -/
def locationChunk (o : Option String) : Filter :=
  match o with
  | some l =>
      if l ≠ "" then
        [("$or", QCond.orRegexI [("location", l), ("city", l), ("state", l)])]
      else []
  | none => []

/-- The `if type:` / `if status:` blocks (lines 84-87): a truthy value
contributes one exact-equality entry under the given key. -/
def eqStrChunk (key : String) (o : Option String) : Filter :=
  match o with
  | some s => if s ≠ "" then [(key, QCond.eq (vStr s))] else []
  | none => []

/-- The price block (lines 88-94): if either bound is present, one
`price` entry holding the range sub-dict; an absent bound is simply not
a key of that sub-dict. -/
def priceChunk (mn mx : Option Rat) : Filter :=
  if mn.isSome || mx.isSome then [("price", QCond.range mn mx)] else []

/-- The `bedrooms` block (lines 95-96): a present value contributes one
`{"$gte": n}` entry. -/
def bedroomsChunk (o : Option Int) : Filter :=
  match o with
  | some n => [("bedrooms", QCond.gte (vInt n))]
  | none => []

/-- The `bathrooms` block (lines 97-98). -/
def bathroomsChunk (o : Option Rat) : Filter :=
  match o with
  | some q => [("bathrooms", QCond.gte (vRat q))]
  | none => []

/-- The `featured` block (lines 99-100): present (true or false) means
one exact-equality entry; absent means no entry. -/
def featuredChunk (o : Option Bool) : Filter :=
  match o with
  | some b => [("featured", QCond.eq (vBool b))]
  | none => []

/-- The filter dict built by `list_properties` (`main.py` lines 77-100),
block by block in source order.  `if location:` / `if type:` /
`if status:` are Python truthiness tests, so an empty string contributes
nothing; the numeric and boolean parameters are tested with
`is not None`. -/
def buildFilter (p : SearchParams) : Filter :=
  locationChunk p.location
    ++ eqStrChunk "type" p.type
    ++ eqStrChunk "status" p.status
    ++ priceChunk p.min_price p.max_price
    ++ bedroomsChunk p.bedrooms
    ++ bathroomsChunk p.bathrooms
    ++ featuredChunk p.featured

/-! ### Store-side evaluation of a filter

The store that evaluates the predicate is MongoDB behind `database.py`,
neither of which is in the provided source, so the evaluation semantics
below is modelled from the specification. -/

/-- ASCII lowering of one character (the case folding this program's
data exercises). -/
def lowerChar (c : Char) : Char :=
  if c.isUpper then Char.ofNat (c.toNat + 32) else c

/-- Python's `str.lower()`, modelled on the ASCII range as a character
list map. -/
def pyLower (s : String) : String := String.mk (s.toList.map lowerChar)

/-- `startsWithL pat hay`: `pat` is a prefix of `hay` (character lists). -/
def startsWithL : List Char → List Char → Bool
  | [], _ => true
  | _ :: _, [] => false
  | p :: ps, h :: hs => p == h && startsWithL ps hs

/-- `containsL pat hay`: `pat` occurs contiguously inside `hay`. -/
def containsL (pat : List Char) : List Char → Bool
  | [] => pat.isEmpty
  | h :: hs => startsWithL pat (h :: hs) || containsL pat hs

/-- Modelled from the spec: the store's evaluation of
`{"$regex": pat, "$options": "i"}` — the spec's only fuzzy-matching
rule, a "case-insensitive substring match" (§4.2) — as: the pattern
occurs in the field value up to letter case. -/
def ciContains (hay pat : String) : Bool :=
  containsL (pat.toList.map lowerChar) (hay.toList.map lowerChar)

/-- Numeric view of a stored value, for range comparisons. -/
def valAsRat : Val → Option Rat
  | Val.prim (Prim.pInt n) => some (n : Rat)
  | Val.prim (Prim.pRat q) => some q
  | _ => none

/-- Modelled from the spec: one `{field: {"$regex": pat, "$options":
"i"}}` alternative of the `$or` group holds when the document's string
field contains the pattern up to letter case. -/
def fieldCiMatch (d : Doc) (field pat : String) : Bool :=
  match getField d field with
  | some (Val.prim (Prim.pStr s)) => ciContains s pat
  | _ => false

/-- Modelled from the spec: store-side truth of one `key ↦ constraint`
entry of the predicate against a document (§4.2: equality is exact,
`$gte` is a minimum threshold, the price range bounds the field from
both present sides, the `$or` group holds when any alternative does). -/
def condHolds (d : Doc) (key : String) : QCond → Bool
  | QCond.eq v => getField d key == some v
  | QCond.gte v =>
      match getField d key >>= valAsRat, valAsRat v with
      | some x, some b => b ≤ x
      | _, _ => false
  | QCond.range lo hi =>
      match getField d key >>= valAsRat with
      | some x =>
          (match lo with | some b => b ≤ x | none => true)
            && (match hi with | some b => x ≤ b | none => true)
      | none => false
  | QCond.orRegexI alts => alts.any (fun fp => fieldCiMatch d fp.1 fp.2)

/-- Modelled from the spec: a document matches the predicate when every
entry of the dict holds (§4.2: all present constraints are combined with
implicit logical AND). -/
def filterMatches (f : Filter) (d : Doc) : Bool :=
  f.all (fun kv => condHolds d kv.1 kv.2)

/-- Modelled from the external driver's documented cursor semantics:
`.limit(n)` with `n = 0` applies no limit at all, and any non-zero `n`
caps the result at `|n|` documents. -/
def mongoLimit (n : Int) (xs : List Doc) : List Doc :=
  if n = 0 then xs else xs.take n.natAbs

/-- `GET /api/properties` (`main.py` lines 63-103): with no store
connection the handler returns `[]`; otherwise it finds the documents
matching the built filter, caps them with `.limit(limit)`, and
serializes each.  The store is the `property` collection as a list in
natural (insertion) order. -/
def list_properties (store : Option (List Doc)) (p : SearchParams) (limit : Int) :
    List Doc :=
  match store with
  | none => []
  | some docs =>
      (mongoLimit limit (docs.filter (fun d => filterMatches (buildFilter p) d))).map
        serialize_doc

/-! ## Property detail lookup (`get_property`, lines 106-117) -/

/-- Modelled from the external bson library's `ObjectId.is_valid` on a
string, per the spec's "well-known validity predicate" over the 12-byte
identifier (§4.1): exactly 24 hexadecimal characters. -/
def is_valid_oid (s : String) : Bool :=
  s.length == 24
    && s.toList.all (fun c =>
      c.isDigit || ('a' ≤ c && c ≤ 'f') || ('A' ≤ c && c ≤ 'F'))

/-- `ObjectId(s)` on a valid 24-hex-char string: the identifier it
denotes, in canonical (lowercase) form, so comparison with a stored
identifier is comparison of the underlying bytes. -/
def oidOfString (s : String) : String := pyLower s

/-- Outcome of a single-document read endpoint. -/
inductive GetResult where
  | ok (d : Doc)
  | notFound
  | dbUnavailable
deriving DecidableEq, Repr

/-- The `$or` clause list built by `get_property` (`main.py` lines
110-113): always the slug equality, plus the id equality exactly when
the identifier is syntactically valid. -/
def get_property_clauses (identifier : String) : List (String × Val) :=
  [("slug", vStr identifier)]
    ++ (if is_valid_oid identifier then [("_id", vOid (oidOfString identifier))] else [])

/-- Modelled from the spec: the store's evaluation of an `$or` list of
equality clauses — the document matches when some clause does. -/
def orClausesMatch (clauses : List (String × Val)) (d : Doc) : Bool :=
  clauses.any (fun kv => getField d kv.1 == some kv.2)

/-- `GET /api/properties/{identifier}` (`main.py` lines 106-117): 500
with no store, else one combined `find_one` over the `$or` clauses; 404
when nothing matches, otherwise the first match, serialized. -/
def get_property (store : Option (List Doc)) (identifier : String) : GetResult :=
  match store with
  | none => GetResult.dbUnavailable
  | some docs =>
      match docs.find? (fun d => orClausesMatch (get_property_clauses identifier) d) with
      | some doc => GetResult.ok (serialize_doc doc)
      | none => GetResult.notFound

/-! ## Property creation (`create_property`, lines 120-123) -/

/-- Outcome of a write through `create_document`. -/
inductive CreateResult where
  | created (id : String)
  | unavailable
deriving DecidableEq, Repr

/-- Modelled from the spec: `create_document` lives in `database.py`,
which is not part of the provided source.  Per §4.1 (`insertOne(document)
-> generatedId`, unavailable-store operations "turned into a well-defined
service unavailable response") and §7 (write endpoints give an explicit
unavailable signal), it returns the store-assigned identifier on success
and an explicit unavailable error when no connection exists.  `newId`
stands for the store-assigned identifier. -/
def create_document (store : Option (List Doc)) (newId : String) (_doc : Doc) :
    CreateResult :=
  match store with
  | none => CreateResult.unavailable
  | some _ => CreateResult.created newId

/-- `POST /api/properties` (`main.py` lines 120-123): delegates directly
to `create_document` and returns its result. -/
def create_property (store : Option (List Doc)) (newId : String) (payload : Doc) :
    CreateResult :=
  create_document store newId payload

/-! ## Leads (`create_lead` lines 170-210, `list_leads` lines 213-218) -/

/-- The `Lead` schema (`schemas.py`): `utm` is a string-to-string map,
rendered as an association list. -/
structure Lead where
  name : String
  email : Option String := none
  phone : Option String := none
  message : Option String := none
  source : Option String := some "website"
  property_id : Option String := none
  tags : List String := []
  utm : Option (List (String × String)) := none
  score : Option Int := none
deriving DecidableEq, Repr

/-- The scoring heuristic of `create_lead` (`main.py` lines 172-179),
accumulator step by accumulator step: `if payload.email:` is Python
truthiness (present and non-empty); the phone bonus needs a truthy phone
of at least 10 characters; the message bonus a truthy message of more
than 80 characters. -/
def lead_score (payload : Lead) : Int :=
  let s0 : Int := 0
  let s1 := if strTruthy payload.email then s0 + 10 else s0
  let s2 :=
    match payload.phone with
    | some ph => if ph ≠ "" ∧ 10 ≤ ph.length then s1 + 20 else s1
    | none => s1
  match payload.message with
  | some m => if m ≠ "" ∧ 80 < m.length then s2 + 10 else s2
  | none => s2

/-- `None`-or-string rendered as a stored value. -/
def optStr : Option String → Val
  | some s => vStr s
  | none => vNull

/-- `None`-or-integer rendered as a stored value. -/
def optInt : Option Int → Val
  | some n => vInt n
  | none => vNull

/-- `None`-or-number rendered as a stored value. -/
def optRat : Option Rat → Val
  | some q => vRat q
  | none => vNull

/-- `payload.model_dump()` for a `Lead`: every schema field, in
declaration order, with `None` kept as null. -/
def lead_dump (payload : Lead) : Doc :=
  [("name", vStr payload.name),
   ("email", optStr payload.email),
   ("phone", optStr payload.phone),
   ("message", optStr payload.message),
   ("source", optStr payload.source),
   ("property_id", optStr payload.property_id),
   ("tags", vStrList payload.tags),
   ("utm",
     match payload.utm with
     | some kvs => Val.vDoc (kvs.map (fun kv => (kv.1, Prim.pStr kv.2)))
     | none => vNull),
   ("score", optInt payload.score)]

/-- Python dict assignment `d[k] = v`: replace in place when the key
exists, append otherwise.  (Also the per-key shape of the store's
`$set`.) -/
def setKey (d : Doc) (k : String) (v : Val) : Doc :=
  if (d.find? (fun kv => kv.1 == k)).isSome then
    d.map (fun kv => if kv.1 == k then (kv.1, v) else kv)
  else d ++ [(k, v)]

/-- `POST /api/leads` (`main.py` lines 170-210), store side and response
side: the dumped payload with its `score` entry overwritten by the
computed score is handed to the store, and the same computed score is
returned.  (The best-effort CRM forward touches neither.) -/
def create_lead (payload : Lead) : Doc × Int :=
  let score := lead_score payload
  let data := setKey (lead_dump payload) "score" (vInt score)
  (data, score)

/-- The sort key `list_leads` asks the store for: the `created_at`
field, when it is a stored timestamp. -/
def leadSortKey (d : Doc) : Option Nat :=
  match getField d "created_at" with
  | some (Val.prim (Prim.pTime t)) => some t
  | _ => none

/-- Descending comparison on sort keys: a missing key compares as null,
below every timestamp. -/
def keyGe (a b : Option Nat) : Bool :=
  match a, b with
  | _, none => true
  | none, some _ => false
  | some x, some y => y ≤ x

/-- One step of a stable descending insertion sort on `created_at`. -/
def insertDesc (d : Doc) : List Doc → List Doc
  | [] => [d]
  | x :: xs => if keyGe (leadSortKey d) (leadSortKey x) then d :: x :: xs
               else x :: insertDesc d xs

/-- Modelled from the external store's `sort("created_at", -1)`: a
stable descending sort — documents with equal (including equally
missing) keys keep their natural, insertion order. -/
def sortByCreatedAtDesc (docs : List Doc) : List Doc :=
  docs.foldr insertDesc []

/-- `GET /api/leads` (`main.py` lines 213-218): empty with no store,
else the lead collection sorted by `created_at` descending, capped by
`.limit(limit)` and serialized. -/
def list_leads (store : Option (List Doc)) (limit : Int) : List Doc :=
  match store with
  | none => []
  | some docs => (mongoLimit limit (sortByCreatedAtDesc docs)).map serialize_doc

/-! ## SEO lookup (`get_seo`, lines 229-237) -/

/-- A store with named collections: `db[name]`, an unknown name being an
empty collection. -/
def dbColl (colls : List (String × List Doc)) (name : String) : List Doc :=
  match colls.find? (fun kv => kv.1 == name) with
  | some kv => kv.2
  | none => []

/-- `serialize_doc` instantiated at the flat sub-document type (Python
dicts are untyped, so the source's one function serves both; the
stratified embedding needs this second instance). -/
def serializeSub (sd : SubDoc) : SubDoc :=
  if sd.isEmpty then sd
  else sd.map (fun kv =>
    if kv.1 == "_id" then (kv.1, Prim.pStr (pyStr (Val.prim kv.2))) else kv)

/-- Outcome of `GET /api/seo/{kind}/{slug}`. -/
inductive SeoResult where
  | ok (v : Val)
  | notFound
  | dbUnavailable
deriving DecidableEq, Repr

/-- `GET /api/seo/{kind}/{slug}` (`main.py` lines 229-237): 500 with no
store; else `find_one({"slug": slug})` on the collection named by the
lowercased kind, 404 when nothing matches, otherwise
`serialize_doc(doc.get("seo", {}))` — the embedded sub-document
serialized, a missing `seo` key defaulting to the empty dict, and a
falsy stored value (null) passing through `serialize_doc` unchanged. -/
def get_seo (store : Option (List (String × List Doc))) (kind slug : String) :
    SeoResult :=
  match store with
  | none => SeoResult.dbUnavailable
  | some colls =>
      match (dbColl colls (pyLower kind)).find?
          (fun d => getField d "slug" == some (vStr slug)) with
      | none => SeoResult.notFound
      | some d =>
          match (getField d "seo").getD (Val.vDoc []) with
          | Val.vDoc sd => SeoResult.ok (Val.vDoc (serializeSub sd))
          | v => SeoResult.ok v

/-! ## Property schema and the two update endpoints (lines 126-151) -/

/-- The embedded `SEO` schema (`schemas.py`). -/
structure SEO where
  title : Option String := none
  description : Option String := none
  keywords : Option (List String) := none
  schema_type : Option String := some "RealEstateAgent"
deriving DecidableEq, Repr

/-- The `Property` schema (`schemas.py`): enumerated fields carried as
strings, URLs as strings, numbers as rationals. -/
structure Property where
  title : String
  slug : String
  type : String := "residential"
  status : String := "available"
  price : Rat
  currency : String := "USD"
  location : String
  address : Option String := none
  city : Option String := none
  state : Option String := none
  country : Option String := some "Mexico"
  bedrooms : Option Int := none
  bathrooms : Option Rat := none
  area_m2 : Option Rat := none
  parking : Option Int := none
  amenities : List String := []
  description : Option String := none
  hero_image : Option String := none
  gallery : List String := []
  video_url : Option String := none
  tour_360_url : Option String := none
  floorplan_url : Option String := none
  latitude : Option Rat := none
  longitude : Option Rat := none
  featured : Bool := false
  seo : Option SEO := none
deriving DecidableEq, Repr

/-- `None`-or-string as a flat primitive. -/
def pOptStr : Option String → Prim
  | some s => Prim.pStr s
  | none => Prim.pNull

/-- `model_dump()` of the embedded `SEO` block. -/
def seo_dump (s : SEO) : SubDoc :=
  [("title", pOptStr s.title),
   ("description", pOptStr s.description),
   ("keywords",
     match s.keywords with
     | some xs => Prim.pStrList xs
     | none => Prim.pNull),
   ("schema_type", pOptStr s.schema_type)]

/-- `payload.model_dump()` for a `Property`: every schema field, in
declaration order, with `None` kept as null. -/
def property_dump (p : Property) : Doc :=
  [("title", vStr p.title),
   ("slug", vStr p.slug),
   ("type", vStr p.type),
   ("status", vStr p.status),
   ("price", vRat p.price),
   ("currency", vStr p.currency),
   ("location", vStr p.location),
   ("address", optStr p.address),
   ("city", optStr p.city),
   ("state", optStr p.state),
   ("country", optStr p.country),
   ("bedrooms", optInt p.bedrooms),
   ("bathrooms", optRat p.bathrooms),
   ("area_m2", optRat p.area_m2),
   ("parking", optInt p.parking),
   ("amenities", vStrList p.amenities),
   ("description", optStr p.description),
   ("hero_image", optStr p.hero_image),
   ("gallery", vStrList p.gallery),
   ("video_url", optStr p.video_url),
   ("tour_360_url", optStr p.tour_360_url),
   ("floorplan_url", optStr p.floorplan_url),
   ("latitude", optRat p.latitude),
   ("longitude", optRat p.longitude),
   ("featured", vBool p.featured),
   ("seo",
     match p.seo with
     | some s => Val.vDoc (seo_dump s)
     | none => vNull)]

/-- Modelled from the spec: the store's `updateOne(predicate, patch)`
applied to one matched document — `$set` writes each patch entry onto
the document, existing keys in place, new keys appended (§4.1). -/
def mongoSet (d : Doc) (patch : Doc) : Doc :=
  patch.foldl (fun acc kv => setKey acc kv.1 kv.2) d

/-- The `$set` payload of `update_property` (`main.py` lines 132-134):
the dumped request body with an `updated_at` timestamp assigned on top
(`now` stands for `datetime.utcnow()`). -/
def update_property_patch (payload : Property) (now : Nat) : Doc :=
  setKey (property_dump payload) "updated_at" (vTime now)

/-- Effect of a successful `PUT /api/properties/{prop_id}` on the
matched stored document. -/
def update_property_doc (old : Doc) (payload : Property) (now : Nat) : Doc :=
  mongoSet old (update_property_patch payload now)

/-- Effect of a successful `PATCH /api/properties/{prop_id}/status` on
the matched stored document (`main.py` lines 146-148): `$set` of the one
`status` entry. -/
def update_property_status_doc (old : Doc) (st : String) : Doc :=
  mongoSet old [("status", vStr st)]

/-- Outcome of the two update endpoints. -/
inductive UpdateResult where
  | updated (newStore : List Doc)
  | notFound
  | invalidId
  | dbUnavailable
deriving DecidableEq, Repr

/-- `PUT /api/properties/{prop_id}` (`main.py` lines 126-137): 500 with
no store, 400 on a malformed id, 404 when no document carries the id,
else the matched document (ids are unique) rewritten by the `$set`. -/
def update_property (store : Option (List Doc)) (prop_id : String)
    (payload : Property) (now : Nat) : UpdateResult :=
  match store with
  | none => UpdateResult.dbUnavailable
  | some docs =>
      if is_valid_oid prop_id then
        if docs.any (fun d => getField d "_id" == some (vOid (oidOfString prop_id))) then
          UpdateResult.updated (docs.map (fun d =>
            if getField d "_id" == some (vOid (oidOfString prop_id)) then
              update_property_doc d payload now
            else d))
        else UpdateResult.notFound
      else UpdateResult.invalidId

/-- `PATCH /api/properties/{prop_id}/status` (`main.py` lines 140-151):
same shell as `update_property`, with the status-only `$set`. -/
def update_property_status (store : Option (List Doc)) (prop_id : String)
    (st : String) : UpdateResult :=
  match store with
  | none => UpdateResult.dbUnavailable
  | some docs =>
      if is_valid_oid prop_id then
        if docs.any (fun d => getField d "_id" == some (vOid (oidOfString prop_id))) then
          UpdateResult.updated (docs.map (fun d =>
            if getField d "_id" == some (vOid (oidOfString prop_id)) then
              update_property_status_doc d st
            else d))
        else UpdateResult.notFound
      else UpdateResult.invalidId

/-! ## Concrete documents and payloads used in closed evaluations -/

/-- A one-document property collection used for concrete evaluations. -/
def demoProp : Doc :=
  [("_id", vOid "0123456789abcdef01234567"), ("title", vStr "Azure Bay"),
   ("slug", vStr "azure-bay"), ("price", vRat 450000)]

/-- A first lead submission (submitted before `leadB`). -/
def leadA : Lead := { name := "alice", email := some "alice@example.com" }

/-- A second lead submission (submitted after `leadA`). -/
def leadB : Lead := { name := "bob" }

/-- A one-document service collection entry with an embedded SEO block. -/
def demoService : Doc :=
  [("slug", vStr "design-build"),
   ("seo", Val.vDoc [("title", Prim.pStr "Design and Build Services")])]

/-- A concrete request body for the update endpoints. -/
def demoPayload : Property :=
  { title := "T", slug := "t", price := 100, location := "X" }

/-! ## Sanity checks (spec §8 examples) -/

example : serialize_doc [] = [] := by decide

example :
    serialize_doc [("_id", vOid "0123456789abcdef01234567"), ("title", vStr "x")]
      = [("_id", vStr "0123456789abcdef01234567"), ("title", vStr "x")] := by
  decide

example :
    lead_score { name := "n", email := some "a@b.com", phone := some "5551234567",
                 message := some (String.mk (List.replicate 90 'x')) } = 40 := by
  decide

example : lead_score { name := "n", phone := some "123" } = 0 := by decide

example : lead_score { name := "n", email := some "a@b.com" } = 10 := by decide

example :
    buildFilter { type := some "residential" }
      = [("type", QCond.eq (vStr "residential"))] := by decide

/-! ## Helper lemmas -/

lemma serializeEntry_fst (kv : String × Val) : (serializeEntry kv).1 = kv.1 := by
  unfold serializeEntry
  split <;> rfl

lemma serializeEntry_of_ne (kv : String × Val) (h : kv.1 ≠ "_id") :
    serializeEntry kv = kv := by
  simp [serializeEntry, h]

lemma getField_cons (kv : String × Val) (rest : Doc) (k : String) :
    getField (kv :: rest) k = if kv.1 == k then some kv.2 else getField rest k := by
  by_cases h : kv.1 == k <;> simp [getField, List.find?_cons, h]

lemma map_fst_serialize (doc : Doc) :
    (doc.map serializeEntry).map Prod.fst = doc.map Prod.fst := by
  induction doc with
  | nil => rfl
  | cons kv rest ih => simp [serializeEntry_fst, ih]

lemma getField_map_serializeEntry (doc : Doc) (k : String) (hk : k ≠ "_id") :
    getField (doc.map serializeEntry) k = getField doc k := by
  induction doc with
  | nil => rfl
  | cons kv rest ih =>
      rw [List.map_cons, getField_cons, getField_cons, serializeEntry_fst]
      by_cases h : kv.1 == k
      · have hk1 : kv.1 ≠ "_id" := by
          rw [beq_iff_eq.mp h]
          exact hk
        simp [h, serializeEntry_of_ne kv hk1]
      · simp [h, ih]

lemma getField_map_serializeEntry_id (doc : Doc) (v : Val)
    (h : getField doc "_id" = some v) :
    getField (doc.map serializeEntry) "_id" = some (vStr (pyStr v)) := by
  induction doc with
  | nil => simp [getField] at h
  | cons kv rest ih =>
      rw [getField_cons] at h
      rw [List.map_cons, getField_cons, serializeEntry_fst]
      by_cases hh : kv.1 == "_id"
      · simp only [hh, if_pos] at h ⊢
        have hv : kv.2 = v := by simpa using h
        simp [serializeEntry, hh, hv]
      · simp only [hh] at h ⊢
        simp only [Bool.false_eq_true, if_false] at h ⊢
        exact ih h

lemma map_serializeEntry_eq_self (doc : Doc) (h : getField doc "_id" = none) :
    doc.map serializeEntry = doc := by
  induction doc with
  | nil => rfl
  | cons kv rest ih =>
      rw [getField_cons] at h
      by_cases hh : kv.1 == "_id"
      · simp [hh] at h
      · simp only [hh, Bool.false_eq_true, if_false] at h
        rw [List.map_cons, serializeEntry_of_ne kv (by simpa using hh), ih h]

/-! ## C9 -/

/-- C9: `serialize_doc` changes at most the `_id` field, rendering it as
its canonical string form under the same key; it preserves the key list,
leaves every other field unchanged, passes an empty document through
unchanged, and is the identity when no `_id` field is present. -/
theorem C9_serialize_doc_frame (doc : Doc) :
    (doc = [] → serialize_doc doc = doc)
    ∧ (serialize_doc doc).map Prod.fst = doc.map Prod.fst
    ∧ (∀ k, k ≠ "_id" → getField (serialize_doc doc) k = getField doc k)
    ∧ (∀ v, getField doc "_id" = some v →
        getField (serialize_doc doc) "_id" = some (vStr (pyStr v)))
    ∧ (getField doc "_id" = none → serialize_doc doc = doc) := by
  refine ⟨fun h => by simp [h, serialize_doc], ?_, ?_, ?_, ?_⟩
  · cases doc with
    | nil => rfl
    | cons kv rest => simpa [serialize_doc] using map_fst_serialize (kv :: rest)
  · intro k hk
    cases doc with
    | nil => rfl
    | cons kv rest =>
        simpa [serialize_doc] using getField_map_serializeEntry (kv :: rest) k hk
  · intro v hv
    cases doc with
    | nil => simp [getField] at hv
    | cons kv rest =>
        simpa [serialize_doc] using getField_map_serializeEntry_id (kv :: rest) v hv
  · intro h
    cases doc with
    | nil => rfl
    | cons kv rest =>
        simpa [serialize_doc] using map_serializeEntry_eq_self (kv :: rest) h

/-- Closed instance of `C9_serialize_doc_frame` with its hypotheses
discharged at a concrete document. -/
theorem C9_witness :
    serialize_doc [] = []
    ∧ getField
          (serialize_doc [("_id", vOid "0123456789abcdef01234567"), ("title", vStr "x")])
          "title"
        = getField [("_id", vOid "0123456789abcdef01234567"), ("title", vStr "x")] "title"
    ∧ getField
          (serialize_doc [("_id", vOid "0123456789abcdef01234567"), ("title", vStr "x")])
          "_id"
        = some (vStr (pyStr (vOid "0123456789abcdef01234567")))
    ∧ serialize_doc [("title", vStr "x")] = [("title", vStr "x")] :=
  ⟨(C9_serialize_doc_frame []).1 rfl,
   (C9_serialize_doc_frame _).2.2.1 "title" (by decide),
   (C9_serialize_doc_frame [("_id", vOid "0123456789abcdef01234567"), ("title", vStr "x")]).2.2.2.1
     (vOid "0123456789abcdef01234567") (by decide),
   (C9_serialize_doc_frame [("title", vStr "x")]).2.2.2.2 (by decide)⟩

/-! ## Filter-builder lemmas: which keys each block can contribute -/

lemma locationChunk_filter_ne (o : Option String) (K : String) (h : K ≠ "$or") :
    (locationChunk o).filter (fun kv => kv.1 == K) = [] := by
  cases o with
  | none => rfl
  | some l =>
      unfold locationChunk
      by_cases hl : l = ""
      · simp [hl]
      · simp [hl, List.filter_cons, Ne.symm h]

lemma eqStrChunk_filter_ne (key : String) (o : Option String) (K : String)
    (h : key ≠ K) :
    (eqStrChunk key o).filter (fun kv => kv.1 == K) = [] := by
  cases o with
  | none => rfl
  | some s =>
      unfold eqStrChunk
      by_cases hs : s = ""
      · simp [hs]
      · simp [hs, List.filter_cons, h]

lemma priceChunk_filter_ne (mn mx : Option Rat) (K : String) (h : K ≠ "price") :
    (priceChunk mn mx).filter (fun kv => kv.1 == K) = [] := by
  unfold priceChunk
  split
  · simp [List.filter_cons, Ne.symm h]
  · rfl

lemma priceChunk_filter_self (mn mx : Option Rat) :
    (priceChunk mn mx).filter (fun kv => kv.1 == "price") = priceChunk mn mx := by
  unfold priceChunk
  split <;> simp [List.filter_cons]

lemma bedroomsChunk_filter_ne (o : Option Int) (K : String) (h : K ≠ "bedrooms") :
    (bedroomsChunk o).filter (fun kv => kv.1 == K) = [] := by
  cases o with
  | none => rfl
  | some n => simp [bedroomsChunk, List.filter_cons, Ne.symm h]

lemma bathroomsChunk_filter_ne (o : Option Rat) (K : String) (h : K ≠ "bathrooms") :
    (bathroomsChunk o).filter (fun kv => kv.1 == K) = [] := by
  cases o with
  | none => rfl
  | some q => simp [bathroomsChunk, List.filter_cons, Ne.symm h]

lemma featuredChunk_filter_ne (o : Option Bool) (K : String) (h : K ≠ "featured") :
    (featuredChunk o).filter (fun kv => kv.1 == K) = [] := by
  cases o with
  | none => rfl
  | some b => simp [featuredChunk, List.filter_cons, Ne.symm h]

/-! ## C1 -/

/-- C1: a present, non-empty `location` contributes exactly one `$or`
group — the filter is that group consed onto the filter of the same
parameters without `location`, which itself holds no `$or` entry — the
group requires a case-insensitive substring match of the location value
against one of `location`, `city`, `state`, and on every document the
whole predicate is that disjunction AND-ed with all the remaining
constraints. -/
theorem C1_location_or_group (p : SearchParams) (l : String) (d : Doc)
    (hl : p.location = some l) (hne : l ≠ "") :
    buildFilter p
      = ("$or", QCond.orRegexI [("location", l), ("city", l), ("state", l)])
          :: buildFilter { p with location := none }
    ∧ (buildFilter { p with location := none }).filter (fun kv => kv.1 == "$or") = []
    ∧ filterMatches (buildFilter p) d
        = ((fieldCiMatch d "location" l || fieldCiMatch d "city" l
              || fieldCiMatch d "state" l)
            && filterMatches (buildFilter { p with location := none }) d) := by
  have h1 : buildFilter p
      = ("$or", QCond.orRegexI [("location", l), ("city", l), ("state", l)])
          :: buildFilter { p with location := none } := by
    simp [buildFilter, locationChunk, hl, hne]
  refine ⟨h1, ?_, ?_⟩
  · unfold buildFilter
    simp only [List.filter_append]
    rw [show (locationChunk none).filter (fun kv => kv.1 == "$or") = [] from rfl,
      eqStrChunk_filter_ne _ _ _ (by decide), eqStrChunk_filter_ne _ _ _ (by decide),
      priceChunk_filter_ne _ _ _ (by decide), bedroomsChunk_filter_ne _ _ (by decide),
      bathroomsChunk_filter_ne _ _ (by decide), featuredChunk_filter_ne _ _ (by decide)]
    rfl
  · rw [h1]
    simp [filterMatches, condHolds, Bool.or_assoc]

/-- Closed instance of `C1_location_or_group` with its hypotheses
discharged at a concrete parameter set and document. -/
theorem C1_witness :
    filterMatches (buildFilter { location := some "can" }) [("city", vStr "Cancun City")]
      = ((fieldCiMatch [("city", vStr "Cancun City")] "location" "can"
            || fieldCiMatch [("city", vStr "Cancun City")] "city" "can"
            || fieldCiMatch [("city", vStr "Cancun City")] "state" "can")
          && filterMatches (buildFilter ({} : SearchParams)) [("city", vStr "Cancun City")]) :=
  (C1_location_or_group { location := some "can" } "can" [("city", vStr "Cancun City")]
    rfl (by decide)).2.2

/-! ## C5 -/

/-- C5: the built predicate holds exactly one `price` entry — a single
range clause carrying precisely the present bounds (an absent bound is
`none`, an omitted key of the range sub-dict, not a literal 0 or
infinity) — when `min_price` or `max_price` is present, and no `price`
entry at all when neither is. -/
theorem C5_price_range (p : SearchParams) :
    (buildFilter p).filter (fun kv => kv.1 == "price")
      = if p.min_price.isSome || p.max_price.isSome then
          [("price", QCond.range p.min_price p.max_price)]
        else [] := by
  unfold buildFilter
  simp only [List.filter_append]
  rw [locationChunk_filter_ne _ _ (by decide),
    eqStrChunk_filter_ne _ _ _ (by decide), eqStrChunk_filter_ne _ _ _ (by decide),
    priceChunk_filter_self, bedroomsChunk_filter_ne _ _ (by decide),
    bathroomsChunk_filter_ne _ _ (by decide), featuredChunk_filter_ne _ _ (by decide)]
  simp [priceChunk]

/-! ## C6 -/

/-- C6 counterexample: with `limit=0` the store's `.limit(0)` applies no
limit at all, so the client-supplied limit value does not bound the
result — one document (everything in the store) comes back where a
bound of 0 was requested. -/
theorem C6_counterexample :
    (list_properties (some [demoProp]) {} 0).length = 1
    ∧ ¬ ((list_properties (some [demoProp]) {} 0).length ≤ 0) := by
  decide

/-- C6 amended: the default limit is 50 and any *non-zero* limit bounds
the number of returned results by its absolute value; `limit=0` is the
one value that applies no bound. -/
theorem C6_limit_amended :
    (∀ (store : Option (List Doc)) (p : SearchParams) (n : Int), n ≠ 0 →
        (list_properties store p n).length ≤ n.natAbs)
    ∧ ∀ (store : Option (List Doc)) (p : SearchParams),
        (list_properties store p 50).length ≤ 50 := by
  constructor
  · intro store p n hn
    cases store with
    | none => simp [list_properties]
    | some docs =>
        simp only [list_properties, mongoLimit, hn, if_false, List.length_map,
          List.length_take]
        omega
  · intro store p
    cases store with
    | none => simp [list_properties]
    | some docs =>
        simp only [list_properties, mongoLimit, List.length_map, List.length_take]
        norm_num

/-- Closed instance of `C6_limit_amended` with its hypothesis discharged
at a concrete non-zero limit. -/
theorem C6_witness :
    (list_properties (some [demoProp]) {} 2).length ≤ (2 : Int).natAbs :=
  C6_limit_amended.1 (some [demoProp]) {} 2 (by decide)

/-! ## Update lemmas: `setKey` and `mongoSet` -/

lemma getField_map_set_of_mem (d : Doc) (k : String) (v : Val)
    (h : (d.find? (fun kv => kv.1 == k)).isSome = true) :
    getField (d.map (fun kv => if kv.1 == k then (kv.1, v) else kv)) k = some v := by
  induction d with
  | nil => simp at h
  | cons kv rest ih =>
      by_cases hk : kv.1 = k
      · simp [List.map_cons, hk, getField_cons]
      · have hb : (kv.1 == k) = false := beq_eq_false_iff_ne.mpr hk
        have h2 : (rest.find? (fun kv => kv.1 == k)).isSome = true := by
          simpa [List.find?_cons, hb] using h
        simpa [List.map_cons, getField_cons, hk] using ih h2

lemma getField_append_not_found (d : Doc) (k : String) (v : Val)
    (h : d.find? (fun kv => kv.1 == k) = none) :
    getField (d ++ [(k, v)]) k = some v := by
  induction d with
  | nil => simp [getField, List.find?_cons]
  | cons kv rest ih =>
      by_cases hk : kv.1 = k
      · simp [List.find?_cons, hk] at h
      · simp only [List.find?_cons, beq_eq_false_iff_ne.mpr hk] at h
        simp [List.cons_append, getField_cons, hk, ih h]

lemma getField_setKey_self (d : Doc) (k : String) (v : Val) :
    getField (setKey d k v) k = some v := by
  unfold setKey
  by_cases h : (d.find? (fun kv => kv.1 == k)).isSome
  · rw [if_pos h]
    exact getField_map_set_of_mem d k v h
  · rw [if_neg h]
    exact getField_append_not_found d k v (Option.not_isSome_iff_eq_none.mp h)

lemma getField_map_set_ne (d : Doc) (k j : String) (v : Val) (h : j ≠ k) :
    getField (d.map (fun kv => if kv.1 == k then (kv.1, v) else kv)) j
      = getField d j := by
  induction d with
  | nil => rfl
  | cons kv rest ih =>
      by_cases hk : kv.1 = k
      · have hbk : (kv.1 == k) = true := beq_iff_eq.mpr hk
        have hbj : (kv.1 == j) = false := by
          apply beq_eq_false_iff_ne.mpr
          rw [hk]
          exact Ne.symm h
        rw [List.map_cons, getField_cons, getField_cons]
        simpa [hbk, hbj] using ih
      · by_cases hj : kv.1 = j
        · simp [List.map_cons, getField_cons, hk, hj, h]
        · simpa [List.map_cons, getField_cons, hk, hj] using ih

lemma getField_append_ne (d : Doc) (k j : String) (v : Val) (h : j ≠ k) :
    getField (d ++ [(k, v)]) j = getField d j := by
  induction d with
  | nil => simp [getField, List.find?_cons, Ne.symm h]
  | cons kv rest ih =>
      by_cases hj : kv.1 = j <;> simp [List.cons_append, getField_cons, hj, ih]

lemma getField_setKey_ne (d : Doc) (k j : String) (v : Val) (h : j ≠ k) :
    getField (setKey d k v) j = getField d j := by
  unfold setKey
  split
  · exact getField_map_set_ne d k j v h
  · exact getField_append_ne d k j v h

lemma getField_eq_none_of_not_mem (d : Doc) (j : String)
    (h : j ∉ d.map Prod.fst) :
    getField d j = none := by
  induction d with
  | nil => rfl
  | cons kv rest ih =>
      simp only [List.map_cons, List.mem_cons] at h
      push_neg at h
      rw [getField_cons, if_neg]
      · exact ih h.2
      · simp [Ne.symm h.1]

lemma getField_mongoSet_not_mem (patch : Doc) (d : Doc) (j : String)
    (h : ∀ kv ∈ patch, kv.1 ≠ j) :
    getField (mongoSet d patch) j = getField d j := by
  induction patch generalizing d with
  | nil => rfl
  | cons kv ps ih =>
      rw [show mongoSet d (kv :: ps) = mongoSet (setKey d kv.1 kv.2) ps from rfl]
      rw [ih (setKey d kv.1 kv.2) (fun x hx => h x (List.mem_cons_of_mem _ hx))]
      exact getField_setKey_ne d kv.1 j kv.2 (Ne.symm (h kv (List.mem_cons_self _ _)))

lemma getField_mongoSet_mem (patch : Doc) (d : Doc) (j : String) (v : Val)
    (hnd : (patch.map Prod.fst).Nodup) (hmem : (j, v) ∈ patch) :
    getField (mongoSet d patch) j = some v := by
  induction patch generalizing d with
  | nil => cases hmem
  | cons kv ps ih =>
      rw [List.map_cons] at hnd
      have hnd2 := List.nodup_cons.mp hnd
      rw [show mongoSet d (kv :: ps) = mongoSet (setKey d kv.1 kv.2) ps from rfl]
      rcases List.mem_cons.mp hmem with heq | hmem2
      · subst heq
        have hkeys : ∀ x ∈ ps, x.1 ≠ j := by
          intro x hx heq2
          apply hnd2.1
          show j ∈ List.map Prod.fst ps
          rw [← heq2]
          exact List.mem_map_of_mem Prod.fst hx
        rw [getField_mongoSet_not_mem ps _ j hkeys]
        exact getField_setKey_self d j v
      · exact ih (setKey d kv.1 kv.2) hnd2.2 hmem2

/-! ## C2 -/

lemma orClausesMatch_get_property (identifier : String) (d : Doc) :
    orClausesMatch (get_property_clauses identifier) d = true
      ↔ getField d "slug" = some (vStr identifier)
        ∨ (is_valid_oid identifier = true
            ∧ getField d "_id" = some (vOid (oidOfString identifier))) := by
  unfold orClausesMatch get_property_clauses
  by_cases h : is_valid_oid identifier <;> simp [h]

/-- C2: `get_property` issues a single combined lookup — its `$or`
clause list is the slug equality alone when the identifier is not a
syntactically valid store identifier — and it answers 404 NotFound
exactly when no stored document matches the slug clause or (for a valid
identifier) the id clause. -/
theorem C2_get_property (store : List Doc) (identifier : String) :
    (is_valid_oid identifier = false →
        get_property_clauses identifier = [("slug", vStr identifier)])
    ∧ (get_property (some store) identifier = GetResult.notFound
        ↔ ∀ d ∈ store,
            getField d "slug" ≠ some (vStr identifier)
            ∧ (is_valid_oid identifier = true →
                getField d "_id" ≠ some (vOid (oidOfString identifier)))) := by
  constructor
  · intro h
    simp [get_property_clauses, h]
  · have hstep : get_property (some store) identifier = GetResult.notFound
        ↔ store.find? (fun d => orClausesMatch (get_property_clauses identifier) d)
            = none := by
      unfold get_property
      rcases hfind : store.find?
          (fun d => orClausesMatch (get_property_clauses identifier) d) with _ | d <;>
        simp [hfind]
    rw [hstep, List.find?_eq_none]
    constructor
    · intro h d hd
      have hnot := h d hd
      rw [orClausesMatch_get_property] at hnot
      exact ⟨fun hs => hnot (Or.inl hs), fun hv hi => hnot (Or.inr ⟨hv, hi⟩)⟩
    · intro h d hd
      rw [orClausesMatch_get_property]
      rintro (hs | ⟨hv, hi⟩)
      · exact (h d hd).1 hs
      · exact (h d hd).2 hv hi

/-- Closed instance of `C2_get_property` at a malformed identifier and
an empty store, its hypotheses discharged concretely. -/
theorem C2_witness :
    get_property_clauses "not-a-hex-id" = [("slug", vStr "not-a-hex-id")]
    ∧ get_property (some []) "not-a-hex-id" = GetResult.notFound :=
  ⟨(C2_get_property [] "not-a-hex-id").1 (by decide),
   (C2_get_property [] "not-a-hex-id").2.mpr
     (fun d hd => absurd hd (List.not_mem_nil d))⟩

/-! ## C3 -/

/-- C3: the score handed to the store and returned by `POST /api/leads`
is the computed heuristic — the sum of the three independent bonuses of
the claim — any client-supplied `score` being overwritten, and no field
other than `email`, `phone`, `message` affects the computed value. -/
theorem C3_lead_score (payload : Lead) :
    getField (create_lead payload).1 "score" = some (vInt (lead_score payload))
    ∧ (create_lead payload).2 = lead_score payload
    ∧ lead_score payload
        = (if payload.email.isSome ∧ payload.email.getD "" ≠ "" then 10 else 0)
          + (if payload.phone.isSome ∧ 10 ≤ (payload.phone.getD "").length then 20
             else 0)
          + (if payload.message.isSome ∧ 80 < (payload.message.getD "").length then 10
             else 0)
    ∧ ∀ q : Lead, q.email = payload.email → q.phone = payload.phone →
        q.message = payload.message → lead_score q = lead_score payload := by
  refine ⟨?_, rfl, ?_, ?_⟩
  · show getField (setKey (lead_dump payload) "score" (vInt (lead_score payload)))
        "score" = some (vInt (lead_score payload))
    exact getField_setKey_self _ _ _
  · obtain ⟨name, email, phone, message, source, pid, tags, utm, score⟩ := payload
    cases email <;> cases phone <;> cases message <;>
      simp only [lead_score, strTruthy, Option.isSome_none, Option.isSome_some,
        Option.getD_some, Option.getD_none] <;>
      split_ifs <;> simp_all
  · intro q h1 h2 h3
    simp only [lead_score, h1, h2, h3]

/-- Closed instance of `C3_lead_score`: a differing `name`, `tags` and
client-supplied `score` leave the computed score unchanged. -/
theorem C3_witness :
    lead_score { name := "other", email := some "a@b.com", phone := some "123",
                 tags := ["vip"], score := some 99 }
      = lead_score { name := "n", email := some "a@b.com", phone := some "123" } :=
  (C3_lead_score { name := "n", email := some "a@b.com", phone := some "123" }).2.2.2
    _ rfl rfl rfl

/-! ## C4 -/

/-- C4: with no store connection, `GET /api/properties` answers the
empty list as a plain success, while `POST /api/properties` answers the
explicit unavailable error, which is distinct from every successful
creation result. -/
theorem C4_store_unavailable (p : SearchParams) (limit : Int) (newId : String)
    (payload : Doc) :
    list_properties none p limit = []
    ∧ create_property none newId payload = CreateResult.unavailable :=
  ⟨rfl, rfl⟩

/-! ## C7 -/

/-- C7 (code bug): `create_lead` stores no `created_at` field, so the
descending `created_at` sort of `list_leads` has only missing keys to
compare and leaves the leads in insertion order — two leads submitted
as `leadA` then `leadB` come back oldest first, not newest first, and
the two serialized leads are distinct, so the order is observable. -/
theorem C7_leads_not_newest_first :
    (∀ payload : Lead, getField (create_lead payload).1 "created_at" = none)
    ∧ list_leads (some [(create_lead leadA).1, (create_lead leadB).1]) 100
        = [serialize_doc (create_lead leadA).1, serialize_doc (create_lead leadB).1]
    ∧ getField (serialize_doc (create_lead leadA).1) "name" = some (vStr "alice")
    ∧ getField (serialize_doc (create_lead leadB).1) "name" = some (vStr "bob") := by
  refine ⟨?_, by decide, by decide, by decide⟩
  intro payload
  rfl

/-! ## C8 -/

/-- C8: `get_seo` answers 404 exactly when no document of the named
(lowercased) collection carries the slug, and on the first match it
returns that document's embedded `seo` sub-document, serialized. -/
theorem C8_get_seo (colls : List (String × List Doc)) (kind slug : String) :
    (get_seo (some colls) kind slug = SeoResult.notFound
      ↔ ∀ d ∈ dbColl colls (pyLower kind), getField d "slug" ≠ some (vStr slug))
    ∧ ∀ d sd,
        (dbColl colls (pyLower kind)).find?
            (fun x => getField x "slug" == some (vStr slug)) = some d →
        getField d "seo" = some (Val.vDoc sd) →
        get_seo (some colls) kind slug = SeoResult.ok (Val.vDoc (serializeSub sd)) := by
  constructor
  · have hstep : get_seo (some colls) kind slug = SeoResult.notFound
        ↔ (dbColl colls (pyLower kind)).find?
            (fun d => getField d "slug" == some (vStr slug)) = none := by
      unfold get_seo
      rcases hfind : (dbColl colls (pyLower kind)).find?
          (fun d => getField d "slug" == some (vStr slug)) with _ | d
      · simp [hfind]
      · rcases hseo : (getField d "seo").getD (Val.vDoc []) with p | sd <;>
          simp [hfind, hseo]
    rw [hstep, List.find?_eq_none]
    simp
  · intro d sd hfind hseo
    simp [get_seo, hfind, hseo]

/-- Closed instance of `C8_get_seo`, its hypotheses discharged at a
concrete store holding one service document with an SEO block. -/
theorem C8_witness :
    get_seo (some [("service", [demoService])]) "Service" "design-build"
      = SeoResult.ok
          (Val.vDoc (serializeSub [("title", Prim.pStr "Design and Build Services")]))
    ∧ get_seo (some [("service", [demoService])]) "Service" "no-such-slug"
      = SeoResult.notFound :=
  ⟨(C8_get_seo [("service", [demoService])] "Service" "design-build").2 demoService
     [("title", Prim.pStr "Design and Build Services")] (by decide) (by decide),
   (C8_get_seo [("service", [demoService])] "Service" "no-such-slug").1.mpr
     (by decide)⟩

/-! ## C10 -/

lemma update_property_patch_eq (payload : Property) (now : Nat) :
    update_property_patch payload now
      = property_dump payload ++ [("updated_at", vTime now)] := rfl

lemma property_dump_keys (payload : Property) :
    (property_dump payload).map Prod.fst
      = ["title", "slug", "type", "status", "price", "currency", "location",
         "address", "city", "state", "country", "bedrooms", "bathrooms", "area_m2",
         "parking", "amenities", "description", "hero_image", "gallery", "video_url",
         "tour_360_url", "floorplan_url", "latitude", "longitude", "featured",
         "seo"] := rfl

lemma update_property_patch_keys (payload : Property) (now : Nat) :
    (update_property_patch payload now).map Prod.fst
      = ["title", "slug", "type", "status", "price", "currency", "location",
         "address", "city", "state", "country", "bedrooms", "bathrooms", "area_m2",
         "parking", "amenities", "description", "hero_image", "gallery", "video_url",
         "tour_360_url", "floorplan_url", "latitude", "longitude", "featured", "seo",
         "updated_at"] := rfl

/-- C10: a successful PUT `$set`s every field of the dumped request body
plus the extra `updated_at` timestamp — a key that is not part of the
`Property` schema dump — onto the stored document, while a successful
status PATCH writes the `status` field and leaves every other field,
`updated_at` included, exactly as it was. -/
theorem C10_update_frame (old : Doc) (payload : Property) (now : Nat) (st : String) :
    (∀ j v, (j, v) ∈ update_property_patch payload now →
        getField (update_property_doc old payload now) j = some v)
    ∧ getField (update_property_doc old payload now) "updated_at" = some (vTime now)
    ∧ getField (property_dump payload) "updated_at" = none
    ∧ getField (update_property_status_doc old st) "status" = some (vStr st)
    ∧ ∀ j, j ≠ "status" →
        getField (update_property_status_doc old st) j = getField old j := by
  have hnd : ((update_property_patch payload now).map Prod.fst).Nodup := by
    rw [update_property_patch_keys]
    decide
  refine ⟨?_, ?_, ?_, ?_, ?_⟩
  · intro j v hmem
    exact getField_mongoSet_mem _ old j v hnd hmem
  · apply getField_mongoSet_mem _ old _ _ hnd
    rw [update_property_patch_eq]
    exact List.mem_append_right _ (List.mem_singleton.mpr rfl)
  · apply getField_eq_none_of_not_mem
    rw [property_dump_keys]
    decide
  · exact getField_setKey_self old "status" (vStr st)
  · intro j hj
    exact getField_setKey_ne old "status" j (vStr st) hj

/-- Closed instance of `C10_update_frame`: the status PATCH leaves the
`price` and `updated_at` fields of a concrete stored document as they
were. -/
theorem C10_witness :
    getField (update_property_doc [("price", vRat 1)] demoPayload 7) "title"
      = some (vStr "T")
    ∧ getField (update_property_status_doc [("price", vRat 1)] "sold") "price"
      = getField [("price", vRat 1)] "price"
    ∧ getField (update_property_status_doc [("price", vRat 1)] "sold") "updated_at"
      = getField [("price", vRat 1)] "updated_at" :=
  ⟨(C10_update_frame [("price", vRat 1)] demoPayload 7 "sold").1 "title" (vStr "T")
     (by decide),
   (C10_update_frame [("price", vRat 1)] demoPayload 0 "sold").2.2.2.2 "price"
     (by decide),
   (C10_update_frame [("price", vRat 1)] demoPayload 0 "sold").2.2.2.2 "updated_at"
     (by decide)⟩

end RealEstate
